import Mathlib

/-!
Shallow embedding of the core of `src/app.py` (SIEM Query Generator).

The spec's two components are embedded from the source:

* Model Selector — `initialize_ai` (app.py lines 36-51): configure the
  backend, try to construct the preferred model handle, on failure
  enumerate models, filter by `generateContent` support and bind the first.
* Query Synthesizer — `generate_siem_data` (app.py lines 54-87): build the
  guardrail prompt (an f-string, embedded here as the concatenation of its
  literal pieces and interpolations), call the model, strip markdown fences
  from the response text and parse it with `json.loads`, catching only
  `json.JSONDecodeError` and answering a fixed fallback record there.

Python string methods `str.strip`, `str.removeprefix`, `str.removesuffix`
and `json.loads` are embedded below over `List Char`.  `json.loads` is a
recursive-descent parser for the grammar Python's `json` module accepts
(objects, arrays, strings with escapes, numbers kept as their lexeme,
`true`/`false`/`null` and the Python extensions `NaN`/`Infinity`/
`-Infinity`); duplicate object keys keep their first position and last
value, as a Python dict does.  One corner is approximated: a lone
surrogate `\uXXXX` escape becomes U+FFFD, since a Lean `Char` cannot hold
a surrogate code point (no claim touches this corner).
-/

/-- Python whitespace as stripped by `str.strip()` with no arguments: the
characters for which `str.isspace` holds. -/
def pyIsSpace (c : Char) : Bool :=
  c == ' ' || c == '\t' || c == '\n' || c == '\r' || c == '\x0b' || c == '\x0c' ||
  c.toNat == 0x1c || c.toNat == 0x1d || c.toNat == 0x1e || c.toNat == 0x1f ||
  c.toNat == 0x85 || c.toNat == 0xa0 || c.toNat == 0x1680 ||
  (0x2000 ≤ c.toNat && c.toNat ≤ 0x200a) ||
  c.toNat == 0x2028 || c.toNat == 0x2029 || c.toNat == 0x202f ||
  c.toNat == 0x205f || c.toNat == 0x3000

/-- Leading-whitespace removal on the character list. -/
def stripLeftL (l : List Char) : List Char := l.dropWhile pyIsSpace

/-- Trailing-whitespace removal on the character list. -/
def stripRightL (l : List Char) : List Char := (l.reverse.dropWhile pyIsSpace).reverse

/-- Python `str.strip()` on the character list. -/
def pyStripL (l : List Char) : List Char := stripRightL (stripLeftL l)

/-- Python `str.strip()`. -/
def pyStrip (s : String) : String := ⟨pyStripL s.data⟩

/-- Whether the first list is a prefix of the second (character lists). -/
def listHasPre : List Char → List Char → Bool
  | [], _ => true
  | _ :: _, [] => false
  | p :: ps, c :: cs => p == c && listHasPre ps cs

/-- Python `s.startswith(p)`. -/
def strStartsWith (s p : String) : Bool := listHasPre p.data s.data

/-- Python `s.endswith(p)`. -/
def strEndsWith (s p : String) : Bool := listHasPre p.data.reverse s.data.reverse

/-- Python `s.removeprefix(p)`: drop `p` from the front when it is a prefix,
otherwise return `s` unchanged. -/
def pyRemovePre (s p : String) : String :=
  if strStartsWith s p then ⟨s.data.drop p.data.length⟩ else s

/-- Python `s.removesuffix(p)`: drop `p` from the end when it is a suffix,
otherwise return `s` unchanged. -/
def pyRemoveSuf (s p : String) : String :=
  if strEndsWith s p then ⟨s.data.take (s.data.length - p.data.length)⟩ else s

/-- The response cleaning of app.py line 79-81:
`response.text.strip().removeprefix("```json").removesuffix("```").strip()`. -/
def clean_text (s : String) : String :=
  pyStrip (pyRemoveSuf (pyRemovePre (pyStrip s) "```json") "```")

/-- The values `json.loads` produces.  Numbers are kept as their source
lexeme: `generate_siem_data` never inspects them, it returns the parsed
value unchanged. -/
inductive Json where
  | null
  | bool (b : Bool)
  | num (lexeme : String)
  | str (s : String)
  | arr (items : List Json)
  | obj (fields : List (String × Json))

/-- JSON whitespace (what `json.loads` skips between tokens). -/
def jsonWs (c : Char) : Bool := c == ' ' || c == '\t' || c == '\n' || c == '\r'

/-- Skip JSON whitespace. -/
def skipWs : List Char → List Char
  | [] => []
  | c :: cs => if jsonWs c then skipWs cs else c :: cs

/-- Value of one hex digit. -/
def hexVal (c : Char) : Option Nat :=
  if 48 ≤ c.toNat && c.toNat ≤ 57 then some (c.toNat - 48)
  else if 97 ≤ c.toNat && c.toNat ≤ 102 then some (c.toNat - 87)
  else if 65 ≤ c.toNat && c.toNat ≤ 70 then some (c.toNat - 55)
  else none

/-- Value of a `\uXXXX` escape's four hex digits. -/
def hex4 (h1 h2 h3 h4 : Char) : Option Nat := do
  let a ← hexVal h1
  let b ← hexVal h2
  let c ← hexVal h3
  let d ← hexVal h4
  pure (a * 4096 + b * 256 + c * 16 + d)

/-- The character a `\uXXXX` code denotes.  A surrogate pair has already
been combined by the caller; a lone surrogate becomes U+FFFD (a Lean `Char`
cannot hold a surrogate; Python would keep it, but no claim reaches this). -/
def charOfCode (n : Nat) : Char :=
  if 0xd800 ≤ n && n ≤ 0xdfff then Char.ofNat 0xfffd else Char.ofNat n

/-- Body of a JSON string literal, after the opening quote: accumulate
characters (reversed) until the closing quote, resolving escapes the way
Python's `json` module does, rejecting raw control characters.  The fuel
is supplied as the input's length; every step consumes at least one
character, so it never runs out. -/
def parseStrBody : Nat → List Char → List Char → Except String (String × List Char)
  | 0, _, _ => .error "Unterminated string"
  | _ + 1, _, [] => .error "Unterminated string"
  | _ + 1, acc, '"' :: rest => .ok (⟨acc.reverse⟩, rest)
  | fuel + 1, acc, '\\' :: 'u' :: h1 :: h2 :: h3 :: h4 :: rest =>
    match hex4 h1 h2 h3 h4 with
    | none => .error "Invalid \\uXXXX escape"
    | some n =>
      if 0xd800 ≤ n && n ≤ 0xdbff then
        match rest with
        | '\\' :: 'u' :: g1 :: g2 :: g3 :: g4 :: rest2 =>
          match hex4 g1 g2 g3 g4 with
          | some m =>
            if 0xdc00 ≤ m && m ≤ 0xdfff then
              parseStrBody fuel (Char.ofNat (0x10000 + (n - 0xd800) * 0x400 + (m - 0xdc00)) :: acc) rest2
            else parseStrBody fuel (charOfCode n :: acc) rest
          | none => parseStrBody fuel (charOfCode n :: acc) rest
        | _ => parseStrBody fuel (charOfCode n :: acc) rest
      else parseStrBody fuel (charOfCode n :: acc) rest
  | fuel + 1, acc, '\\' :: e :: rest =>
    if e == '"' then parseStrBody fuel ('"' :: acc) rest
    else if e == '\\' then parseStrBody fuel ('\\' :: acc) rest
    else if e == '/' then parseStrBody fuel ('/' :: acc) rest
    else if e == 'b' then parseStrBody fuel ('\x08' :: acc) rest
    else if e == 'f' then parseStrBody fuel ('\x0c' :: acc) rest
    else if e == 'n' then parseStrBody fuel ('\n' :: acc) rest
    else if e == 'r' then parseStrBody fuel ('\r' :: acc) rest
    else if e == 't' then parseStrBody fuel ('\t' :: acc) rest
    else .error "Invalid \\escape"
  | _ + 1, _, ['\\'] => .error "Unterminated string"
  | fuel + 1, acc, c :: rest =>
    if c.toNat < 0x20 then .error "Invalid control character"
    else parseStrBody fuel (c :: acc) rest

/-- Drop a literal (character list `p`) from the front of `s`, or `none`. -/
def dropLit : List Char → List Char → Option (List Char)
  | [], s => some s
  | _ :: _, [] => none
  | p :: ps, c :: cs => if p == c then dropLit ps cs else none

/-- Fraction part of a JSON number: `.digits`, or nothing (the dot is then
left in place, as with Python's maximal-munch number regex). -/
def scanFrac (t : List Char) : List Char × List Char :=
  match t with
  | '.' :: t1 =>
    match t1.span Char.isDigit with
    | ([], _) => ([], t)
    | (ds, t2) => ('.' :: ds, t2)
  | _ => ([], t)

/-- Exponent part of a JSON number: `[eE][+-]?digits`, or nothing. -/
def scanExp (t : List Char) : List Char × List Char :=
  match t with
  | e :: t1 =>
    if e == 'e' || e == 'E' then
      match t1 with
      | s :: t2 =>
        if s == '+' || s == '-' then
          match t2.span Char.isDigit with
          | ([], _) => ([], t)
          | (ds, t3) => (e :: s :: ds, t3)
        else
          match t1.span Char.isDigit with
          | ([], _) => ([], t)
          | (ds, t3) => (e :: ds, t3)
      | [] => ([], t)
    else ([], t)
  | [] => ([], t)

/-- A JSON number starting at `cs` (maximal match of Python's number regex
`-?(0|[1-9]\d*)(\.\d+)?([eE][+-]?\d+)?`), as its lexeme and the rest. -/
def scanNumber (cs : List Char) : Except String (String × List Char) :=
  let (sgn, cs1) := match cs with
    | '-' :: t => (['-'], t)
    | _ => (([] : List Char), cs)
  match cs1 with
  | '0' :: t =>
    let (fr, t2) := scanFrac t
    let (ex, t3) := scanExp t2
    .ok (⟨sgn ++ '0' :: (fr ++ ex)⟩, t3)
  | c :: t =>
    if c.isDigit then
      match (c :: t).span Char.isDigit with
      | (ds, t1) =>
        let (fr, t2) := scanFrac t1
        let (ex, t3) := scanExp t2
        .ok (⟨sgn ++ ds ++ fr ++ ex⟩, t3)
    else .error "Expecting value"
  | [] => .error "Expecting value"

/-- Install a key in an object under construction the way a Python dict
does on a duplicate key: the first position keeps the last value. -/
def insertKey : List (String × Json) → String → Json → List (String × Json)
  | [], k, v => [(k, v)]
  | (k', v') :: t, k, v => if k' == k then (k', v) :: t else (k', v') :: insertKey t k v

mutual

/-- One JSON value (fuel-indexed recursive descent; `json_loads` supplies
ample fuel, and every recursive call follows at least one consumed
character, so the fuel never runs out on the lengths `json_loads` passes). -/
def parseVal : Nat → List Char → Except String (Json × List Char)
  | 0, _ => .error "Nesting too deep"
  | Nat.succ fuel, cs =>
    match skipWs cs with
    | [] => .error "Expecting value"
    | '{' :: rest => parseObjItems fuel rest []
    | '[' :: rest => parseArrItems fuel rest []
    | '"' :: rest =>
      match parseStrBody rest.length [] rest with
      | .ok (s, rest2) => .ok (.str s, rest2)
      | .error e => .error e
    | 't' :: rest =>
      match dropLit ['r', 'u', 'e'] rest with
      | some r => .ok (.bool true, r)
      | none => .error "Expecting value"
    | 'f' :: rest =>
      match dropLit ['a', 'l', 's', 'e'] rest with
      | some r => .ok (.bool false, r)
      | none => .error "Expecting value"
    | 'n' :: rest =>
      match dropLit ['u', 'l', 'l'] rest with
      | some r => .ok (.null, r)
      | none => .error "Expecting value"
    | 'N' :: rest =>
      match dropLit ['a', 'N'] rest with
      | some r => .ok (.num "NaN", r)
      | none => .error "Expecting value"
    | 'I' :: rest =>
      match dropLit ['n', 'f', 'i', 'n', 'i', 't', 'y'] rest with
      | some r => .ok (.num "Infinity", r)
      | none => .error "Expecting value"
    | c :: rest =>
      if c == '-' then
        match dropLit ['I', 'n', 'f', 'i', 'n', 'i', 't', 'y'] rest with
        | some r => .ok (.num "-Infinity", r)
        | none =>
          match scanNumber (c :: rest) with
          | .ok (lex, r) => .ok (.num lex, r)
          | .error e => .error e
      else if c.isDigit then
        match scanNumber (c :: rest) with
        | .ok (lex, r) => .ok (.num lex, r)
        | .error e => .error e
      else .error "Expecting value"

/-- Array items after `[` or after a comma; `acc` holds the items parsed so
far, reversed. -/
def parseArrItems : Nat → List Char → List Json → Except String (Json × List Char)
  | 0, _, _ => .error "Nesting too deep"
  | Nat.succ fuel, cs, acc =>
    match skipWs cs with
    | ']' :: rest =>
      if acc.isEmpty then .ok (.arr [], rest) else .error "Expecting value"
    | other =>
      match parseVal fuel other with
      | .error e => .error e
      | .ok (v, rest) =>
        match skipWs rest with
        | ']' :: rest2 => .ok (.arr (v :: acc).reverse, rest2)
        | ',' :: rest2 => parseArrItems fuel rest2 (v :: acc)
        | _ => .error "Expecting ',' delimiter"

/-- Object members after `{` or after a comma; `acc` holds the members
parsed so far, in order. -/
def parseObjItems : Nat → List Char → List (String × Json) → Except String (Json × List Char)
  | 0, _, _ => .error "Nesting too deep"
  | Nat.succ fuel, cs, acc =>
    match skipWs cs with
    | '}' :: rest =>
      if acc.isEmpty then .ok (.obj [], rest)
      else .error "Expecting property name enclosed in double quotes"
    | '"' :: rest =>
      match parseStrBody rest.length [] rest with
      | .error e => .error e
      | .ok (k, rest2) =>
        match skipWs rest2 with
        | ':' :: rest3 =>
          match parseVal fuel rest3 with
          | .error e => .error e
          | .ok (v, rest4) =>
            match skipWs rest4 with
            | ',' :: rest5 => parseObjItems fuel rest5 (insertKey acc k v)
            | '}' :: rest5 => .ok (.obj (insertKey acc k v), rest5)
            | _ => .error "Expecting ',' delimiter"
        | _ => .error "Expecting ':' delimiter"
    | _ => .error "Expecting property name enclosed in double quotes"

end

/-- Python `json.loads`: one JSON document, with nothing but whitespace
after it. -/
def json_loads (s : String) : Except String Json :=
  match parseVal (2 * s.data.length + 2) s.data with
  | .error e => .error e
  | .ok (j, rest) =>
    match skipWs rest with
    | [] => .ok j
    | _ => .error "Extra data"

/-- Python exceptions the embedded code distinguishes: the `except` clause
in `generate_siem_data` catches exactly `json.JSONDecodeError`; everything
else (a `ValueError` from the blocked-response `.text` accessor, an API or
network error) propagates. -/
inductive PyExc where
  | jsonDecodeError (msg : String)
  | valueError (msg : String)
  | apiError (msg : String)
deriving DecidableEq

/-- The backend's response object: reading `.text` either yields the text
or raises (Gemini raises a `ValueError` for safety-blocked candidates). -/
structure GenResponse where
  text : Except PyExc String

/-- A bound model handle: `generate_content` submits a prompt and either
returns a response object or raises. -/
structure GenModel where
  generate_content : String → Except PyExc GenResponse

/-- The hardcoded preferred model of `initialize_ai` (app.py line 39). -/
def preferred_model : String := "gemini-1.5-flash"

/-- Guardrail 1 of the prompt (app.py line 60). -/
def guard_time : String := "1. Time scoping: Restrict the search to the last 24 hours."

/-- Guardrail 2 of the prompt (app.py line 61). -/
def guard_svc : String := "2. Exclude service accounts: Filter out users/accounts starting with \"svc_\"."

/-- Guardrail 3 of the prompt (app.py line 62). -/
def guard_limit : String := "3. Performance limit: Limit the output to 100 results (e.g., `| take 100`, `| head 100`, etc.)."

/-- The f-string piece before the `{language}` interpolation (app.py
lines 55-57). -/
def prompt_head : String := "\n    You are a Senior Security Detection Engineer. Your stack focus is Microsoft Entra ID, Azure, AWS, and Google SecOps.\n    Translate the following Natural Language threat hunting request into a highly optimized "

/-- The f-string piece between `{language}` and the first guardrail
(app.py lines 57-59). -/
def prompt_mid : String := " query.\n\n    CRITICAL SOC GUARDRAILS (YOU MUST INJECT THESE INTO THE QUERY):\n    "

/-- The f-string piece after the last guardrail (app.py lines 63-73). -/
def prompt_tail : String := "\n\n    INVESTIGATIVE RECOMMENDATIONS:\n    Provide 3 to 4 logical next-step investigative search terms, pivots, or logic steps based on the context of the user\x27s input.\n    (e.g., if checking IPs, suggest \"Auth Success vs Failure\", \"Device IDs\").\n\n    OUTPUT FORMAT:\n    You must return a valid JSON object with EXACTLY two keys: \"query\" and \"recommendations\".\n    \"query\" must be a string containing the raw code.\n    \"recommendations\" must be a list of 3-4 strings.\n    Do not wrap the JSON in markdown code blocks. Just return the raw JSON string.\n    "

/-- The `system_prompt` f-string of `generate_siem_data` (app.py
lines 55-73), written as the concatenation of its literal pieces and
the `{language}` interpolation. -/
def system_prompt (language : String) : String :=
  prompt_head ++ language ++ prompt_mid ++
    guard_time ++ "\n    " ++ guard_svc ++ "\n    " ++ guard_limit ++ prompt_tail

/-- The full text submitted to the model (app.py line 75):
`f"{system_prompt}\n\nUser Request: {nl_input}"`. -/
def full_prompt (nl_input language : String) : String :=
  system_prompt language ++ "\n\nUser Request: " ++ nl_input

/-- The four selectable query languages (app.py line 110). -/
def siem_language_options : List String :=
  ["KQL (Microsoft Sentinel)", "YARA-L (Google SecOps)", "Sigma", "Splunk SPL"]

/-- The record `generate_siem_data` answers when `json.loads` fails
(app.py lines 84-87). -/
def codeFallback : Json :=
  .obj [("query", .str "-- Error parsing AI response. Please try again."),
        ("recommendations", .arr [])]

/-- The body of the `try` block of `generate_siem_data` (app.py
lines 77-82): read `response.text`, clean it, parse it; a `json.loads`
failure surfaces as a `JSONDecodeError`. -/
def try_parse_response (resp : GenResponse) : Except PyExc Json :=
  match resp.text with
  | .error e => .error e
  | .ok t =>
    match json_loads (clean_text t) with
    | .ok j => .ok j
    | .error msg => .error (.jsonDecodeError msg)

/-- The Query Synthesizer `generate_siem_data` (app.py lines 54-87):
build the prompt, call the model, then run the `try` block; only a
`JSONDecodeError` is absorbed into `codeFallback`, every other exception
propagates, as does one raised by `generate_content` itself (line 75 sits
outside the `try`). -/
def generate_siem_data (model : GenModel) (nl_input language : String) : Except PyExc Json :=
  match model.generate_content (full_prompt nl_input language) with
  | .error e => .error e
  | .ok resp =>
    match try_parse_response resp with
    | .ok j => .ok j
    | .error (.jsonDecodeError _) => .ok codeFallback
    | .error e => .error e

/-- A model whose call succeeds and whose response text is `t`: the mock
used to settle the claims about response handling. -/
def pureModel (t : String) : GenModel := ⟨fun _ => .ok ⟨.ok t⟩⟩

/-- A model whose call succeeds but whose `.text` accessor raises `e`
(e.g. a safety-blocked candidate). -/
def raisingTextModel (e : PyExc) : GenModel := ⟨fun _ => .ok ⟨.error e⟩⟩

/-- A model whose `generate_content` call itself raises `e`. -/
def failingCallModel (e : PyExc) : GenModel := ⟨fun _ => .error e⟩

/-- One entry of `genai.list_models()`: a name and, when the attribute is
present, the declared `supported_generation_methods`
(`getattr(model, "supported_generation_methods", [])`, app.py line 47). -/
structure ModelInfo where
  name : String
  supported_generation_methods : Option (List String)

/-- The `genai` backend as `initialize_ai` consumes it: constructing
`genai.GenerativeModel(name)` either succeeds (the handle is bound to
`name`) or raises, and `genai.list_models()` either yields the catalogue
or raises. -/
structure GenAiBackend where
  new_model : String → Except PyExc Unit
  list_models : Except PyExc (List ModelInfo)

/-- The backend calls `initialize_ai` performs, in order; `enumerate`
records the `genai.list_models()` call of the fallback path. -/
inductive ApiCall where
  | construct (name : String)
  | enumerate
deriving DecidableEq

/-- The list comprehension of app.py lines 44-48: names of the models
that declare support for `generateContent`. -/
def available_model_names (ms : List ModelInfo) : List String :=
  (ms.filter (fun m => (m.supported_generation_methods.getD []).contains "generateContent")).map
    (fun m => m.name)

/-- The Model Selector `initialize_ai` (app.py lines 36-51), returning the
bound model name (or the propagated exception) together with the trace of
backend calls made.  The bare `raise` of line 50 re-raises the original
construction failure when the filtered list is empty. -/
def initialize_ai (b : GenAiBackend) : Except PyExc String × List ApiCall :=
  match b.new_model preferred_model with
  | .ok _ => (.ok preferred_model, [.construct preferred_model])
  | .error e =>
    match b.list_models with
    | .error e2 => (.error e2, [.construct preferred_model, .enumerate])
    | .ok ms =>
      match available_model_names ms with
      | [] => (.error e, [.construct preferred_model, .enumerate])
      | name :: _ =>
        match b.new_model name with
        | .ok _ => (.ok name, [.construct preferred_model, .enumerate, .construct name])
        | .error e3 => (.error e3, [.construct preferred_model, .enumerate, .construct name])

/-- Association-list lookup among an object's fields. -/
def lookupKey : List (String × Json) → String → Option Json
  | [], _ => none
  | (k', v) :: t, k => if k' == k then some v else lookupKey t k

/-- Field access on a parsed value: `some` only for an object that has
the key. -/
def Json.getKey (j : Json) (k : String) : Option Json :=
  match j with
  | .obj fs => lookupKey fs k
  | _ => none

/-- Substring containment, as the spec's "textually contains". -/
def containsStr (s sub : String) : Prop := ∃ a b, s = a ++ sub ++ b

/-- Modelled from the spec: the fallback record exactly as claim C1 and
spec section 8 quote it ("Error parsing AI response. Please try again.",
without the leading "-- " comment marker the source writes). -/
def specFallback : Json :=
  .obj [("query", .str "Error parsing AI response. Please try again."),
        ("recommendations", .arr [])]

/-- Modelled from the spec: the SynthesizedResult invariant of spec
section 3 as claim C4 states it — the `recommendations` field has at most
4 entries and the `query` field is present. -/
def specResultInvariant (j : Json) : Prop :=
  (∃ q, j.getKey "query" = some q) ∧
    ∀ l, j.getKey "recommendations" = some (.arr l) → l.length ≤ 4

/-- The value of `generate_siem_data` as a function of the response text
alone: what the `try`/`except` of app.py lines 77-87 yields when the model
call succeeds and `.text` is readable. -/
def synth_result (t : String) : Except PyExc Json :=
  match json_loads (clean_text t) with
  | .ok j => .ok j
  | .error _ => .ok codeFallback

/-- The `query` field's text, when the value is an object whose `query`
field is a string (an observation used to separate concrete records). -/
def queryText (j : Json) : Option String :=
  match j.getKey "query" with
  | some (.str s) => some s
  | _ => none

/-- Observation of a synthesis result: the `query` text of a returned
record, `none` for a propagated exception. -/
def resultQueryText (r : Except PyExc Json) : Option String :=
  match r with
  | .ok j => queryText j
  | .error _ => none

/-- A backend whose preferred-model construction succeeds (used to witness
the claims about the fast path). -/
def okBackend : GenAiBackend := ⟨fun _ => .ok (), .ok []⟩

/-- A backend whose model construction always raises and whose catalogue
is empty (used to witness the empty-fallback claim). -/
def emptyBackend : GenAiBackend :=
  ⟨fun _ => .error (.apiError "404 models/gemini-1.5-flash is not found"), .ok []⟩

/-! ### Library of facts about the embedded string operations -/

theorem strMk_data (s : String) : (⟨s.data⟩ : String) = s := rfl

theorem stripRightL_eq_rdropWhile (l : List Char) : stripRightL l = l.rdropWhile pyIsSpace := rfl

theorem dropWhile_nil_of_all {a : List Char} (h : ∀ c ∈ a, pyIsSpace c = true) :
    a.dropWhile pyIsSpace = [] := by
  induction a with
  | nil => rfl
  | cons c t ih =>
    rw [List.dropWhile_cons, if_pos (by rw [h c (by simp)])]
    exact ih fun x hx => h x (by simp [hx])

theorem stripLeftL_sandwich {w : List Char} (hw : ∀ c ∈ w, pyIsSpace c = true)
    {c0 : Char} (t : List Char) (hc0 : pyIsSpace c0 = false) :
    stripLeftL (w ++ c0 :: t) = c0 :: t := by
  unfold stripLeftL
  rw [List.dropWhile_append, dropWhile_nil_of_all hw]
  simp [List.dropWhile_cons, hc0]

theorem pyStripL_sandwich {w1 w2 core : List Char}
    (h1 : ∀ c ∈ w1, pyIsSpace c = true) (h2 : ∀ c ∈ w2, pyIsSpace c = true)
    (hhead : ∃ c t, core = c :: t ∧ pyIsSpace c = false)
    (hlast : ∃ t c, core = t ++ [c] ∧ pyIsSpace c = false) :
    pyStripL (w1 ++ core ++ w2) = core := by
  obtain ⟨c0, t0, hct, hc0⟩ := hhead
  obtain ⟨tl, cl, hct2, hcl⟩ := hlast
  have hL : stripLeftL (w1 ++ core ++ w2) = core ++ w2 := by
    rw [List.append_assoc, hct, List.cons_append, stripLeftL_sandwich h1 _ hc0,
      ← List.cons_append, ← hct]
  have hR : stripRightL (core ++ w2) = core := by
    unfold stripRightL
    rw [List.reverse_append, List.dropWhile_append,
      dropWhile_nil_of_all fun c hc => h2 c (List.mem_reverse.mp hc)]
    rw [hct2, List.reverse_append]
    simp [List.dropWhile_cons, hcl]
  show stripRightL (stripLeftL (w1 ++ core ++ w2)) = core
  rw [hL, hR]

theorem pyStrip_sandwich (ws1 ws2 core : String)
    (h1 : ∀ c ∈ ws1.data, pyIsSpace c = true) (h2 : ∀ c ∈ ws2.data, pyIsSpace c = true)
    (hhead : ∃ c t, core.data = c :: t ∧ pyIsSpace c = false)
    (hlast : ∃ t c, core.data = t ++ [c] ∧ pyIsSpace c = false) :
    pyStrip (ws1 ++ core ++ ws2) = core := by
  unfold pyStrip
  rw [String.data_append, String.data_append, pyStripL_sandwich h1 h2 hhead hlast]

theorem listHasPre_append_self (p x : List Char) : listHasPre p (p ++ x) = true := by
  induction p with
  | nil => rfl
  | cons a t ih => simp [listHasPre, ih]

theorem pyRemovePre_exact (p x : String) : pyRemovePre (p ++ x) p = x := by
  unfold pyRemovePre strStartsWith
  rw [String.data_append, listHasPre_append_self, if_pos rfl]
  simp only [List.drop_left]

theorem pyRemoveSuf_exact (x p : String) : pyRemoveSuf (x ++ p) p = x := by
  unfold pyRemoveSuf strEndsWith
  rw [String.data_append, List.reverse_append, listHasPre_append_self]
  rw [if_pos rfl]
  simp only [List.length_append, Nat.add_sub_cancel, List.take_left]

theorem pyRemovePre_noop (s p : String) (h : strStartsWith s p = false) :
    pyRemovePre s p = s := by
  simp [pyRemovePre, h]

theorem pyRemoveSuf_noop (s p : String) (h : strEndsWith s p = false) :
    pyRemoveSuf s p = s := by
  simp [pyRemoveSuf, h]

theorem head_stripLeftL : ∀ {l : List Char} {c : Char} {t : List Char},
    stripLeftL l = c :: t → pyIsSpace c = false := by
  intro l
  induction l with
  | nil => intro c t h; exact absurd h (by simp [stripLeftL])
  | cons a t' ih =>
    intro c t h
    unfold stripLeftL at h
    rw [List.dropWhile_cons] at h
    by_cases ha : pyIsSpace a = true
    · rw [if_pos ha] at h
      exact ih h
    · rw [if_neg ha] at h
      injection h with h1 h2
      subst h1
      simpa using ha

theorem exists_append_stripRightL (l : List Char) : ∃ v, stripRightL l ++ v = l := by
  rw [stripRightL_eq_rdropWhile]
  exact List.rdropWhile_prefix pyIsSpace l

theorem pyStripL_idem (l : List Char) : pyStripL (pyStripL l) = pyStripL l := by
  show stripRightL (stripLeftL (stripRightL (stripLeftL l))) = stripRightL (stripLeftL l)
  have hSL : stripLeftL (stripRightL (stripLeftL l)) = stripRightL (stripLeftL l) := by
    cases hsr : stripRightL (stripLeftL l) with
    | nil => rfl
    | cons c t =>
      obtain ⟨v, hv⟩ := exists_append_stripRightL (stripLeftL l)
      rw [hsr] at hv
      have hc : pyIsSpace c = false :=
        head_stripLeftL (show stripLeftL l = c :: (t ++ v) by rw [← hv, List.cons_append])
      unfold stripLeftL
      rw [List.dropWhile_cons, if_neg (by simp [hc])]
  rw [hSL, stripRightL_eq_rdropWhile, stripRightL_eq_rdropWhile, List.rdropWhile_idempotent]

theorem pyStrip_idem (s : String) : pyStrip (pyStrip s) = pyStrip s :=
  congrArg String.mk (pyStripL_idem s.data)

theorem clean_text_plain (T : String)
    (hpre : strStartsWith (pyStrip T) "```json" = false)
    (hsuf : strEndsWith (pyStrip T) "```" = false) :
    clean_text T = pyStrip T := by
  unfold clean_text
  rw [pyRemovePre_noop _ _ hpre, pyRemoveSuf_noop _ _ hsuf, pyStrip_idem]

theorem clean_text_fenced (T ws1 ws2 : String)
    (h1 : ∀ c ∈ ws1.data, pyIsSpace c = true) (h2 : ∀ c ∈ ws2.data, pyIsSpace c = true) :
    clean_text (ws1 ++ ("```json" ++ T ++ "```") ++ ws2) = pyStrip T := by
  have hhead : ∃ c t, ("```json" ++ T ++ "```").data = c :: t ∧ pyIsSpace c = false := by
    refine ⟨'`', "``json".data ++ T.data ++ "```".data, ?_, by decide⟩
    simp [String.data_append]
  have hlast : ∃ t c, ("```json" ++ T ++ "```").data = t ++ [c] ∧ pyIsSpace c = false := by
    refine ⟨"```json".data ++ T.data ++ "``".data, '`', ?_, by decide⟩
    simp [String.data_append, List.append_assoc]
  unfold clean_text
  rw [pyStrip_sandwich _ _ _ h1 h2 hhead hlast, String.append_assoc,
    pyRemovePre_exact, pyRemoveSuf_exact]

theorem gen_pure (t nl lang : String) :
    generate_siem_data (pureModel t) nl lang = synth_result t := by
  unfold generate_siem_data synth_result pureModel try_parse_response
  cases hj : json_loads (clean_text t) <;> simp [hj]

theorem parseVal_backtick (n : Nat) (x : List Char) :
    parseVal (n + 1) ('`' :: x) = .error "Expecting value" := rfl

theorem json_loads_backtick (x : List Char) :
    json_loads ⟨'`' :: x⟩ = .error "Expecting value" := by
  unfold json_loads
  rw [show (⟨'`' :: x⟩ : String).data = '`' :: x from rfl,
    show 2 * ('`' :: x).length + 2 = 2 * x.length + 3 + 1 from by simp [List.length_cons]; ring,
    parseVal_backtick]

theorem pyStripL_backticks (x : List Char) :
    ∃ u, pyStripL ('`' :: '`' :: '`' :: x) = '`' :: '`' :: '`' :: u := by
  show ∃ u, stripRightL (stripLeftL ('`' :: '`' :: '`' :: x)) = '`' :: '`' :: '`' :: u
  have hL : stripLeftL ('`' :: '`' :: '`' :: x) = '`' :: '`' :: '`' :: x := by
    unfold stripLeftL
    rw [List.dropWhile_cons, if_neg (by decide)]
  rw [hL]
  unfold stripRightL
  rw [show ('`' :: '`' :: '`' :: x).reverse = x.reverse ++ ['`', '`', '`'] from by simp,
    List.dropWhile_append]
  by_cases h : (x.reverse.dropWhile pyIsSpace).isEmpty
  · rw [if_pos h]
    exact ⟨[], rfl⟩
  · rw [if_neg h]
    exact ⟨(x.reverse.dropWhile pyIsSpace).reverse, by simp⟩

theorem listHasPre_json_bt (t : List Char) :
    listHasPre ['j', 's', 'o', 'n'] (t ++ ['`', '`', '`']) = listHasPre ['j', 's', 'o', 'n'] t := by
  match t with
  | [] => decide
  | [c1] => simp [listHasPre]
  | [c1, c2] => simp [listHasPre]
  | [c1, c2, c3] => simp [listHasPre]
  | c1 :: c2 :: c3 :: c4 :: rest => simp [listHasPre]

theorem pyStrip_core (core : String)
    (hhead : ∃ c t, core.data = c :: t ∧ pyIsSpace c = false)
    (hlast : ∃ t c, core.data = t ++ [c] ∧ pyIsSpace c = false) :
    pyStrip core = core := by
  have h0 : ∀ c ∈ ([] : List Char), pyIsSpace c = true := fun c hc => absurd hc (List.not_mem_nil c)
  have := pyStripL_sandwich h0 h0 hhead hlast
  rw [List.append_nil, List.nil_append] at this
  unfold pyStrip
  rw [this]

theorem strStartsWith_plainfence (T : String) (h : strStartsWith T "json" = false) :
    strStartsWith ("```" ++ T ++ "```") "```json" = false := by
  unfold strStartsWith at h ⊢
  rw [String.data_append, String.data_append]
  rw [show ("```".data ++ T.data) ++ "```".data = '`' :: '`' :: '`' :: (T.data ++ ['`', '`', '`']) from by simp]
  rw [show "```json".data = '`' :: '`' :: '`' :: ['j', 's', 'o', 'n'] from rfl]
  simp only [listHasPre, beq_self_eq_true, Bool.true_and]
  rw [listHasPre_json_bt]
  exact h

theorem containsStr_intro (s a sub b : String) (h : s = a ++ sub ++ b) : containsStr s sub :=
  ⟨a, b, h⟩

/-- C5: for each of the four supported target languages and every
natural-language input, the prompt `generate_siem_data` constructs
textually contains the three mandatory guardrail clauses of app.py
lines 60-62 (24-hour scoping, `svc_` exclusion, 100-result cap) and the
language label itself. -/
theorem claim5_prompt_guardrails (nl_input language : String)
    (h : language ∈ siem_language_options) :
    containsStr (full_prompt nl_input language) guard_time ∧
    containsStr (full_prompt nl_input language) guard_svc ∧
    containsStr (full_prompt nl_input language) guard_limit ∧
    containsStr (full_prompt nl_input language) language := by
  refine ⟨⟨prompt_head ++ language ++ prompt_mid,
      "\n    " ++ guard_svc ++ "\n    " ++ guard_limit ++ prompt_tail ++ "\n\nUser Request: " ++ nl_input, ?_⟩,
    ⟨prompt_head ++ language ++ prompt_mid ++ guard_time ++ "\n    ",
      "\n    " ++ guard_limit ++ prompt_tail ++ "\n\nUser Request: " ++ nl_input, ?_⟩,
    ⟨prompt_head ++ language ++ prompt_mid ++ guard_time ++ "\n    " ++ guard_svc ++ "\n    ",
      prompt_tail ++ "\n\nUser Request: " ++ nl_input, ?_⟩,
    ⟨prompt_head,
      prompt_mid ++ guard_time ++ "\n    " ++ guard_svc ++ "\n    " ++ guard_limit ++ prompt_tail ++ "\n\nUser Request: " ++ nl_input, ?_⟩⟩ <;>
  simp [full_prompt, system_prompt, String.append_assoc]

/-- Witness for C5 at the spec's scenario input and the first supported
language. -/
theorem claim5_witness :
    containsStr (full_prompt "failed logins from new countries" "KQL (Microsoft Sentinel)") guard_time ∧
    containsStr (full_prompt "failed logins from new countries" "KQL (Microsoft Sentinel)") guard_svc ∧
    containsStr (full_prompt "failed logins from new countries" "KQL (Microsoft Sentinel)") guard_limit ∧
    containsStr (full_prompt "failed logins from new countries" "KQL (Microsoft Sentinel)") "KQL (Microsoft Sentinel)" :=
  claim5_prompt_guardrails "failed logins from new countries" "KQL (Microsoft Sentinel)" (by decide)

/-- C6: prompt construction is deterministic — two calls with equal
`(naturalLanguageText, targetLanguage)` pairs build byte-identical
instruction text (the embedded `full_prompt` depends on nothing else:
no timestamps, no randomness). -/
theorem claim6_prompt_deterministic (nl1 lang1 nl2 lang2 : String)
    (h1 : nl1 = nl2) (h2 : lang1 = lang2) :
    full_prompt nl1 lang1 = full_prompt nl2 lang2 := by
  rw [h1, h2]

/-- Witness for C6 at a concrete repeated input. -/
theorem claim6_witness :
    full_prompt "failed logins from new countries" "Splunk SPL" =
      full_prompt "failed logins from new countries" "Splunk SPL" :=
  claim6_prompt_deterministic _ _ _ _ rfl rfl

/-- C7: the enumeration fallback of `initialize_ai` runs exactly when
constructing the preferred model raises; when the preferred bind
succeeds, its handle is returned and `genai.list_models` is never
called. -/
theorem claim7_fallback_iff (b : GenAiBackend) :
    (ApiCall.enumerate ∈ (initialize_ai b).2 ↔ b.new_model preferred_model ≠ .ok ()) ∧
    (b.new_model preferred_model = .ok () →
      initialize_ai b = (.ok preferred_model, [.construct preferred_model])) := by
  cases hb : b.new_model preferred_model with
  | ok u =>
    cases u
    constructor
    · unfold initialize_ai
      rw [hb]
      simp
    · intro _
      unfold initialize_ai
      rw [hb]
  | error e =>
    constructor
    · unfold initialize_ai
      rw [hb]
      cases hl : b.list_models with
      | error e2 => simp
      | ok ms =>
        cases hm : available_model_names ms with
        | nil => simp [hm]
        | cons nm tl =>
          cases hc : b.new_model nm <;> simp [hm, hc]
    · intro hcontra
      exact absurd hcontra (by simp)

/-- Witness for C7 at a backend whose preferred bind succeeds. -/
theorem claim7_witness :
    initialize_ai okBackend = (.ok preferred_model, [.construct preferred_model]) :=
  (claim7_fallback_iff okBackend).2 rfl

/-- C8: when the preferred bind raises and no enumerated model supports
content generation, `initialize_ai` re-raises the original failure
unchanged (the bare `raise` of app.py line 50) and returns no handle. -/
theorem claim8_empty_fallback_reraises (b : GenAiBackend) (e : PyExc) (ms : List ModelInfo)
    (h1 : b.new_model preferred_model = .error e)
    (h2 : b.list_models = .ok ms)
    (h3 : available_model_names ms = []) :
    (initialize_ai b).1 = .error e := by
  unfold initialize_ai
  rw [h1, h2]
  simp [h3]

/-- Witness for C8 at a backend that always raises and has an empty
catalogue. -/
theorem claim8_witness :
    (initialize_ai emptyBackend).1 = .error (.apiError "404 models/gemini-1.5-flash is not found") :=
  claim8_empty_fallback_reraises emptyBackend _ [] rfl rfl rfl

/-- C9: the only exception `generate_siem_data` absorbs into the fallback
record is a JSON decode failure; an exception of any other kind — one the
`.text` accessor raises (safety-blocked content) or one `generate_content`
itself raises — propagates to the caller unchanged. -/
theorem claim9_nonjson_exceptions_propagate (e : PyExc) (nl lang : String)
    (h : ∀ m, e ≠ PyExc.jsonDecodeError m) :
    generate_siem_data (raisingTextModel e) nl lang = .error e ∧
    generate_siem_data (failingCallModel e) nl lang = .error e := by
  constructor
  · cases e with
    | jsonDecodeError m => exact absurd rfl (h m)
    | valueError m => rfl
    | apiError m => rfl
  · rfl

/-- Witness for C9 at a concrete blocked-response `ValueError`. -/
theorem claim9_witness :
    generate_siem_data (raisingTextModel (.valueError "response blocked by safety settings"))
        "show me logins" "Sigma" = .error (.valueError "response blocked by safety settings") ∧
    generate_siem_data (failingCallModel (.valueError "response blocked by safety settings"))
        "show me logins" "Sigma" = .error (.valueError "response blocked by safety settings") :=
  claim9_nonjson_exceptions_propagate (.valueError "response blocked by safety settings")
    "show me logins" "Sigma" (fun m h => PyExc.noConfusion h)

/-- C1 (amended): for every model response whose cleaned text fails JSON
parsing — empty strings and truncated objects included — 
`generate_siem_data` returns exactly the fixed fallback record, whose
`query` string carries the source's leading "-- " comment marker, and
raises nothing.  A response that parses as a JSON array is outside this
class: it parses successfully and is returned as-is (see the
counterexample). -/
theorem claim1_parse_failure_fallback (t nl lang msg : String)
    (h : json_loads (clean_text t) = .error msg) :
    generate_siem_data (pureModel t) nl lang = .ok codeFallback := by
  rw [gen_pure]
  unfold synth_result
  rw [h]

/-- Witness for C1 at the spec's refusal-text scenario. -/
theorem claim1_witness :
    generate_siem_data (pureModel "I cannot help with that.") "failed logins" "Sigma" =
      .ok codeFallback :=
  claim1_parse_failure_fallback "I cannot help with that." "failed logins" "Sigma"
    "Expecting value" rfl

/-- Counterexample to C1 as stated: a JSON-array response is returned
as-is, not replaced by the fallback, and even on a true parse failure
(empty response) the returned record differs from the claim's quoted
fallback, whose `query` lacks the "-- " marker. -/
theorem claim1_counterexample :
    generate_siem_data (pureModel "[]") "failed logins" "KQL (Microsoft Sentinel)" ≠ .ok specFallback ∧
    generate_siem_data (pureModel "") "failed logins" "KQL (Microsoft Sentinel)" ≠ .ok specFallback ∧
    generate_siem_data (pureModel "[]") "failed logins" "KQL (Microsoft Sentinel)" = .ok (Json.arr []) ∧
    generate_siem_data (pureModel "") "failed logins" "KQL (Microsoft Sentinel)" = .ok codeFallback :=
  ⟨fun h => absurd (congrArg resultQueryText h) (by decide),
   fun h => absurd (congrArg resultQueryText h) (by decide), rfl, rfl⟩

/-- C2: a response whose cleaned text parses as a JSON object
`{"query": Q, "recommendations": [r1..rn]}` with `n ≤ 4` is returned by
`generate_siem_data` exactly as parsed — no field altered, added or
dropped. -/
theorem claim2_success_unchanged (t nl lang Q : String) (rs : List String)
    (h : json_loads (clean_text t) =
      .ok (Json.obj [("query", .str Q), ("recommendations", .arr (rs.map .str))]))
    (hn : rs.length ≤ 4) :
    generate_siem_data (pureModel t) nl lang =
      .ok (Json.obj [("query", .str Q), ("recommendations", .arr (rs.map .str))]) := by
  rw [gen_pure]
  unfold synth_result
  rw [h]

/-- Witness for C2 at the spec's mocked-backend scenario. -/
theorem claim2_witness :
    generate_siem_data
        (pureModel "\x7b\"query\": \"SigninLogs | where ResultType != 0 | take 100\", \"recommendations\": [\"Check MFA failures\", \"Correlate by IP\"]\x7d")
        "failed logins from new countries" "KQL (Microsoft Sentinel)" =
      .ok (Json.obj [("query", .str "SigninLogs | where ResultType != 0 | take 100"),
        ("recommendations", .arr (["Check MFA failures", "Correlate by IP"].map Json.str))]) :=
  claim2_success_unchanged
    "\x7b\"query\": \"SigninLogs | where ResultType != 0 | take 100\", \"recommendations\": [\"Check MFA failures\", \"Correlate by IP\"]\x7d"
    "failed logins from new countries" "KQL (Microsoft Sentinel)"
    "SigninLogs | where ResultType != 0 | take 100"
    ["Check MFA failures", "Correlate by IP"] rfl (by decide)

/-- C3 (amended): wrapping a response in a markdown JSON fence, with any
surrounding whitespace, gives the same `generate_siem_data` result as the
unwrapped response, provided the stripped response does not itself begin
with the fence opener or end with the fence closer (the counterexample
shows the unrestricted claim fails on such responses). -/
theorem claim3_fence_equivalence (T ws1 ws2 nl lang : String)
    (h1 : ∀ c ∈ ws1.data, pyIsSpace c = true) (h2 : ∀ c ∈ ws2.data, pyIsSpace c = true)
    (hpre : strStartsWith (pyStrip T) "```json" = false)
    (hsuf : strEndsWith (pyStrip T) "```" = false) :
    generate_siem_data (pureModel (ws1 ++ ("```json" ++ T ++ "```") ++ ws2)) nl lang =
      generate_siem_data (pureModel T) nl lang := by
  rw [gen_pure, gen_pure]
  unfold synth_result
  rw [clean_text_fenced T ws1 ws2 h1 h2, clean_text_plain T hpre hsuf]

/-- Witness for C3: a fenced object with trailing whitespace parses the
same as the bare object. -/
theorem claim3_witness :
    generate_siem_data
        (pureModel ("" ++ ("```json" ++ "\n\x7b\"query\": \"q\", \"recommendations\": []\x7d\n" ++ "```") ++ " \n"))
        "failed logins" "Sigma" =
      generate_siem_data (pureModel "\n\x7b\"query\": \"q\", \"recommendations\": []\x7d\n")
        "failed logins" "Sigma" :=
  claim3_fence_equivalence "\n\x7b\"query\": \"q\", \"recommendations\": []\x7d\n" "" " \n"
    "failed logins" "Sigma" (by decide) (by decide) (by decide) (by decide)

/-- Counterexample to C3 as stated: for the response `"{}```"` — whose
stripped form ends in a fence closer — the wrapped call yields the
fallback record while the unwrapped call parses the object, so the two
results differ. -/
theorem claim3_counterexample :
    generate_siem_data (pureModel ("```json" ++ "\x7b\x7d```" ++ "```")) "failed logins" "Sigma" ≠
      generate_siem_data (pureModel "\x7b\x7d```") "failed logins" "Sigma" :=
  fun h => absurd (congrArg resultQueryText h) (by decide)

/-- C4 (amended): `generate_siem_data` either answers the fixed fallback
record — which does satisfy the SynthesizedResult invariant — or passes
the parsed JSON value through unvalidated; on the success path neither
the 4-entry bound on `recommendations` nor the presence of `query` is
enforced (the counterexample exhibits both violations; the UI substitutes
its own placeholder via `result.get` only at render time). -/
theorem claim4_result_invariant (t nl lang : String) :
    (generate_siem_data (pureModel t) nl lang = .ok codeFallback ∧
      specResultInvariant codeFallback) ∨
    (∃ j, json_loads (clean_text t) = .ok j ∧
      generate_siem_data (pureModel t) nl lang = .ok j) := by
  rw [gen_pure]
  unfold synth_result
  cases hj : json_loads (clean_text t) with
  | ok j => exact Or.inr ⟨j, rfl, rfl⟩
  | error msg =>
    refine Or.inl ⟨rfl, ⟨.str "-- Error parsing AI response. Please try again.", rfl⟩, ?_⟩
    intro l hl
    rw [show codeFallback.getKey "recommendations" = some (Json.arr []) from rfl] at hl
    injection hl with h1
    injection h1 with h2
    rw [← h2]
    decide

/-- Counterexample to C4 as stated: a five-entry `recommendations` list
is passed through, and an object with no `query` key is returned with no
placeholder substituted. -/
theorem claim4_counterexample :
    generate_siem_data
        (pureModel "\x7b\"query\": \"q\", \"recommendations\": [\"a\", \"b\", \"c\", \"d\", \"e\"]\x7d")
        "x" "Sigma" =
      .ok (Json.obj [("query", .str "q"),
        ("recommendations", .arr [.str "a", .str "b", .str "c", .str "d", .str "e"])]) ∧
    ¬ specResultInvariant (Json.obj [("query", .str "q"),
        ("recommendations", .arr [.str "a", .str "b", .str "c", .str "d", .str "e"])]) ∧
    generate_siem_data (pureModel "\x7b\"rows\": 1\x7d") "x" "Sigma" =
      .ok (Json.obj [("rows", .num "1")]) ∧
    ¬ specResultInvariant (Json.obj [("rows", .num "1")]) := by
  refine ⟨rfl, ?_, rfl, ?_⟩
  · rintro ⟨-, hlen⟩
    exact absurd (hlen [.str "a", .str "b", .str "c", .str "d", .str "e"] rfl) (by decide)
  · rintro ⟨⟨q, hq⟩, -⟩
    rw [show (Json.obj [("rows", Json.num "1")]).getKey "query" = none from rfl] at hq
    exact Option.noConfusion hq

theorem clean_text_plain_fence (T : String) (h : strStartsWith T "json" = false) :
    ∃ u, clean_text ("```" ++ T ++ "```") = ⟨'`' :: '`' :: '`' :: u⟩ := by
  have hhead : ∃ c t, ("```" ++ T ++ "```").data = c :: t ∧ pyIsSpace c = false := by
    refine ⟨'`', "``".data ++ T.data ++ "```".data, ?_, by decide⟩
    simp [String.data_append]
  have hlast : ∃ t c, ("```" ++ T ++ "```").data = t ++ [c] ∧ pyIsSpace c = false := by
    refine ⟨"```".data ++ T.data ++ "``".data, '`', ?_, by decide⟩
    simp [String.data_append, List.append_assoc]
  unfold clean_text
  rw [pyStrip_core _ hhead hlast,
    pyRemovePre_noop _ _ (strStartsWith_plainfence T h),
    pyRemoveSuf_exact ("```" ++ T) "```"]
  obtain ⟨u, hu⟩ := pyStripL_backticks T.data
  refine ⟨u, ?_⟩
  unfold pyStrip
  rw [show ("```" ++ T).data = '`' :: '`' :: '`' :: T.data from rfl, hu]

/-- C10: fence stripping removes only the literal `"```json"` opener — a
response wrapped in a plain triple-backtick fence, with no `json` tag
after the opener, keeps its opening fence after cleaning, the cleaned
text fails JSON parsing, and the fallback record is returned instead of
the wrapped contents. -/
theorem claim10_plain_fence_not_stripped (T nl lang : String)
    (h : strStartsWith T "json" = false) :
    strStartsWith (clean_text ("```" ++ T ++ "```")) "```" = true ∧
    generate_siem_data (pureModel ("```" ++ T ++ "```")) nl lang = .ok codeFallback := by
  obtain ⟨u, hu⟩ := clean_text_plain_fence T h
  constructor
  · rw [hu]
    unfold strStartsWith
    rw [show ("```" : String).data = ['`', '`', '`'] from rfl]
    simp [listHasPre]
  · rw [gen_pure]
    unfold synth_result
    rw [hu, json_loads_backtick]

/-- Witness for C10 at a concrete plainly fenced object. -/
theorem claim10_witness :
    strStartsWith (clean_text ("```" ++ "\n\x7b\"query\": \"q\"\x7d\n" ++ "```")) "```" = true ∧
    generate_siem_data (pureModel ("```" ++ "\n\x7b\"query\": \"q\"\x7d\n" ++ "```"))
        "failed logins" "Sigma" = .ok codeFallback :=
  claim10_plain_fence_not_stripped "\n\x7b\"query\": \"q\"\x7d\n" "failed logins" "Sigma" (by decide)
